import Mathlib

/-!
Verification development for `ppap.py`, a processor for the PPAP esoteric
language: a ply lexer (`lex`), a yacc grammar (`parse`), a direct
interpreter (`run`) and a C lowering pass (`to_c`).

The Python source is shallowly embedded below.  Machine integers are
modelled as `Int` (Python integers are unbounded), the register and memory
dictionaries as association lists whose most recent binding shadows older
ones, and Python exceptions as explicit error results carrying the state at
the moment the exception is raised.  `stderr` is modelled as a list of
diagnostic strings.
-/

namespace Ppap

/-! ## Tokens (ppap.py lines 19-68)

Token kinds of the ply lexer.  A `REGISTER`-shaped word is reclassified to
the matching keyword kind when its full text equals a keyword spelling
(`t_REGISTER`, lines 52-57). -/

inductive TokType where
  | I | UH | REPLACE | APPEND | RIP | MULTIPLY | CHOP
  | PUSH | PULL | PRINT | PUT | PICK
  | COMPARE | SUPERIOR | JUMP
  | HAVE | NO | A | NUMBER | REGISTER
  | HYPHEN | SPACE | NEWLINE
  | QUESTION_MARK | EXCLAMATION_MARK
deriving DecidableEq, Repr

/-- A lexed token: kind, matched text, integer value (for `NUMBER` tokens,
`t_NUMBER` line 46-49) and the 1-based line number current when the token
was matched. -/
structure Tok where
  ttype : TokType
  text : String
  num : Nat
  lineno : Nat
deriving DecidableEq, Repr

/-- `keyword_map` (line 26): reserved spellings, case sensitive. -/
def kwLookup (s : String) : Option TokType :=
  if s = "I" then some .I
  else if s = "Uh" then some .UH
  else if s = "Replace" then some .REPLACE
  else if s = "Append" then some .APPEND
  else if s = "Rip" then some .RIP
  else if s = "Multiply" then some .MULTIPLY
  else if s = "Chop" then some .CHOP
  else if s = "Push" then some .PUSH
  else if s = "Pull" then some .PULL
  else if s = "Print" then some .PRINT
  else if s = "Put" then some .PUT
  else if s = "Pick" then some .PICK
  else if s = "Compare" then some .COMPARE
  else if s = "Superior" then some .SUPERIOR
  else if s = "Jump" then some .JUMP
  else none

/-- `[A-Z]` of `t_REGISTER` (ASCII, as in the Python regex). -/
def isUpperAZ (c : Char) : Bool := decide (65 ≤ c.toNat ∧ c.toNat ≤ 90)

/-- `[A-Za-z0-9]`, the identifier tail of `t_REGISTER`. -/
def isIdentTail (c : Char) : Bool :=
  decide ((65 ≤ c.toNat ∧ c.toNat ≤ 90) ∨ (97 ≤ c.toNat ∧ c.toNat ≤ 122) ∨
    (48 ≤ c.toNat ∧ c.toNat ≤ 57))

/-- `\d` of `t_NUMBER` (ASCII digits; the claims never involve non-ASCII
digit characters). -/
def isDigitC (c : Char) : Bool := decide (48 ≤ c.toNat ∧ c.toNat ≤ 57)

/-- `[ \t]` of `t_SPACE`. -/
def isSpaceT (c : Char) : Bool := decide (c = ' ' ∨ c = '\t')

/-- Maximal-munch helper: the longest prefix satisfying `p`, and the rest. -/
def takeRun (p : Char → Bool) : List Char → List Char × List Char
  | [] => ([], [])
  | c :: cs =>
    if p c then
      let r := takeRun p cs
      (c :: r.1, r.2)
    else ([], c :: cs)

theorem takeRun_len (p : Char → Bool) : ∀ cs : List Char,
    (takeRun p cs).2.length ≤ cs.length := by
  intro cs
  induction cs with
  | nil => simp [takeRun]
  | cons c cs ih =>
    by_cases h : p c = true
    · simp [takeRun, h]
      omega
    · simp [takeRun, h]

/-- Decimal value of a digit run (`int(t.value)` in `t_NUMBER`). -/
def digitsVal (cs : List Char) : Nat :=
  cs.foldl (fun a c => 10 * a + (c.toNat - 48)) 0

/-- `[^\n]` of `t_ignore_COMMENT`. -/
def notNL (c : Char) : Bool := decide (c ≠ '\n')

/-- The ply lexer (lines 35-68), specialised to this token set.  The master
pattern rules are pairwise disjoint on their first character, so the
first-match order of ply never matters here.  Produces the token stream and
the `Illegal character '<c>'` diagnostics of `t_error` (line 66-68), which
skips one character and continues: tokenization never fails.  `lineno`
starts at 1 and is incremented once per newline (`t_NEWLINE`, lines 60-63);
the newline token itself carries the pre-increment line number.  Comments
`#...` are discarded without a token (`t_ignore_COMMENT`, line 43).

The first argument is structural fuel so the kernel can evaluate the
function; every step consumes at least one input character, so fuel
`length + 1` (supplied by `ppapLex`) never runs out. -/
def lexLoop : Nat → List Char → Nat → List Tok × List String
  | 0, _, _ => ([], [])
  | _ + 1, [], _ => ([], [])
  | f + 1, c :: rest, ln =>
    if isDigitC c then
      let r := takeRun isDigitC rest
      let cs := c :: r.1
      let next := lexLoop f r.2 ln
      (⟨.NUMBER, String.mk cs, digitsVal cs, ln⟩ :: next.1, next.2)
    else if isUpperAZ c then
      let r := takeRun isIdentTail rest
      let text := String.mk (c :: r.1)
      let next := lexLoop f r.2 ln
      (⟨(kwLookup text).getD .REGISTER, text, 0, ln⟩ :: next.1, next.2)
    else if c = '\n' then
      let next := lexLoop f rest (ln + 1)
      (⟨.NEWLINE, "\n", 0, ln⟩ :: next.1, next.2)
    else if c = '\r' then
      if rest.head? = some '\n' then
        let next := lexLoop f (rest.drop 1) (ln + 1)
        (⟨.NEWLINE, "\r\n", 0, ln⟩ :: next.1, next.2)
      else
        let next := lexLoop f rest ln
        (next.1, ("Illegal character '" ++ String.mk [c] ++ "'") :: next.2)
    else if c = '#' then
      let r := takeRun notNL rest
      lexLoop f r.2 ln
    else if isSpaceT c then
      let r := takeRun isSpaceT rest
      let next := lexLoop f r.2 ln
      (⟨.SPACE, String.mk (c :: r.1), 0, ln⟩ :: next.1, next.2)
    else if c = 'h' then
      if rest.take 3 = ['a', 'v', 'e'] then
        let next := lexLoop f (rest.drop 3) ln
        (⟨.HAVE, "have", 0, ln⟩ :: next.1, next.2)
      else
        let next := lexLoop f rest ln
        (next.1, ("Illegal character '" ++ String.mk [c] ++ "'") :: next.2)
    else if c = 'a' then
      if rest.head? = some 'n' then
        let next := lexLoop f (rest.drop 1) ln
        (⟨.A, "an", 0, ln⟩ :: next.1, next.2)
      else
        let next := lexLoop f rest ln
        (⟨.A, "a", 0, ln⟩ :: next.1, next.2)
    else if c = 'n' then
      if rest.head? = some 'o' then
        let next := lexLoop f (rest.drop 1) ln
        (⟨.NO, "no", 0, ln⟩ :: next.1, next.2)
      else
        let next := lexLoop f rest ln
        (next.1, ("Illegal character '" ++ String.mk [c] ++ "'") :: next.2)
    else if c = '-' then
      let next := lexLoop f rest ln
      (⟨.HYPHEN, "-", 0, ln⟩ :: next.1, next.2)
    else if c = '?' then
      let next := lexLoop f rest ln
      (⟨.QUESTION_MARK, "?", 0, ln⟩ :: next.1, next.2)
    else if c = '!' then
      let next := lexLoop f rest ln
      (⟨.EXCLAMATION_MARK, "!", 0, ln⟩ :: next.1, next.2)
    else
      let next := lexLoop f rest ln
      (next.1, ("Illegal character '" ++ String.mk [c] ++ "'") :: next.2)

/-- `lex.lex` applied to the whole input, line counter starting at 1
(`parse`, line 372 resets it). -/
def ppapLex (s : String) : List Tok × List String :=
  lexLoop (s.toList.length + 1) s.toList 1

/-! ## Instructions

The tagged tuples built by the grammar actions (ppap.py lines 137-356).
`REGISTER` carries the declared initial value; all arithmetic and
comparison instructions carry register names; jump instructions carry a
label name. -/

inductive Instr where
  | REGISTER (name : String) (value : Int)
  | LABEL (name : String)
  | MOV (dst src : String)
  | ADD (dst src : String)
  | SUB (dst src : String)
  | MUL (dst src : String)
  | DIV (dst src : String)
  | STORE (src addrReg : String)
  | LOAD (dst addrReg : String)
  | PRINT (reg : String)
  | PUTC (regs : List String)
  | GETC (reg : String)
  | EQ (a b : String)
  | NE (a b : String)
  | GT (a b : String)
  | GE (a b : String)
  | JEQ (a b : String) (label : String)
  | JNE (a b : String) (label : String)
  | JGT (a b : String) (label : String)
  | JGE (a b : String) (label : String)
  | JMP (label : String)
deriving DecidableEq, Repr

/-! ## Parser (ppap.py lines 77-377)

The yacc grammar is strictly line oriented: every `line` production
contains exactly one `NEWLINE`, at its end.  We therefore embed the parser
as the token stream split at newline tokens, with one deterministic
parse per line (the per-line grammar is deterministic, so the first token
on which the LALR parser has no action is exactly the first token at which
this parser fails).  Diagnostics printed by the semantic actions before the
point of failure are kept, as in ply, where those reductions have already
run.  A parse failure is reported with the offending token
(`p_program_error`, lines 102-109); `.error none` stands for an error at
end of input (`p_error`, lines 359-361).

Yacc's panic-mode recovery (`program : error`) is modelled as resuming
with the next source line.  Real ply may additionally re-scan the tail of
a faulty line, which can only produce extra diagnostics for that same
line; it never changes the accumulated result (after an error the
`program` value is `None` forever, so no later instruction or name-table
update survives, see `p_program`, lines 89-99) nor the diagnostics of the
following lines. -/

/-- Result of parsing a fragment: diagnostics emitted so far, and either
the parsed value with the remaining tokens or the offending token. -/
abbrev PRes (α : Type) := List String × Except (Option Tok) α

/-- Sequencing that keeps diagnostics emitted before a failure. -/
def andThen {α β : Type} (x : PRes α) (f : α → PRes β) : PRes β :=
  match x with
  | (ws, .ok a) =>
    let r := f a
    (ws ++ r.1, r.2)
  | (ws, .error e) => (ws, .error e)

/-- Shift a single token of the given kind; the offending token otherwise. -/
def expectT (tt : TokType) (ts : List Tok) : PRes (Tok × List Tok) :=
  match ts with
  | [] => ([], .error none)
  | t :: ts => if t.ttype = tt then ([], .ok (t, ts)) else ([], .error (some t))

/-- The `p_register` warning (lines 178-182): a reference to a name not in
`register_names` is reported, non-fatally. -/
def undeclWarn (rn : List String) (t : Tok) : List String :=
  if t.text ∈ rn then []
  else ["line " ++ toString t.lineno ++ ": '" ++ t.text ++ "' is an undeclared register"]

/-- `register : REGISTER` (`p_register`): warns when undeclared but always
yields the name — `p[0] = p[1]` is unconditional, so the `None` guards in
the command actions (`if p[3] and p[5]`) can never suppress anything. -/
def pRegT (rn : List String) (ts : List Tok) : PRes (Tok × List Tok) :=
  match ts with
  | [] => ([], .error none)
  | t :: ts =>
    if t.ttype = .REGISTER then (undeclWarn rn t, .ok (t, ts))
    else ([], .error (some t))

/-- `label : label HYPHEN register` (`p_label`, lines 165-175), the greedy
continuation after at least two segments have been joined. -/
def labelMore (rn : List String) (name : String) : List Tok → PRes (String × List Tok)
  | t :: ts =>
    if t.ttype = .HYPHEN then
      match ts with
      | t2 :: ts2 =>
        if t2.ttype = .REGISTER then
          let r := labelMore rn (name ++ "-" ++ t2.text) ts2
          (undeclWarn rn t2 ++ r.1, r.2)
        else ([], .error (some t2))
      | [] => ([], .error none)
    else ([], .ok (name, t :: ts))
  | [] => ([], .ok (name, []))

/-- `label : register HYPHEN register` then greedily extended: a label is
at least two hyphen-joined register names.  The first register token has
already been shifted (and its undeclared-register check already run). -/
def labelAfter (rn : List String) (first : Tok) (ts : List Tok) : PRes (String × List Tok) :=
  andThen (expectT .HYPHEN ts) fun (_, ts1) =>
  andThen (pRegT rn ts1) fun (t2, ts2) =>
  labelMore rn (first.text ++ "-" ++ t2.text) ts2

/-- `empty_or_space` (lines 131-134). -/
def skipOptSpace (ts : List Tok) : List Tok :=
  match ts with
  | t :: rest => if t.ttype = .SPACE then rest else t :: rest
  | [] => []

/-- The end of every `line` production: `empty_or_space NEWLINE`. -/
def lineEnd (ts : List Tok) : Except (Option Tok) Unit :=
  match expectT .NEWLINE (skipOptSpace ts) with
  | (_, .ok (_, [])) => .ok ()
  | (_, .ok (_, t :: _)) => .error (some t)
  | (_, .error e) => .error e

/-- Complete a command line: the instruction is produced unconditionally
(see `pRegT`), then the line must close with `empty_or_space NEWLINE`. -/
def finishInstr (i : Instr) (ts : List Tok) : PRes (Option Instr) :=
  match lineEnd ts with
  | .ok _ => ([], .ok (some i))
  | .error e => ([], .error e)

/-- The seven two-register commands (`p_replace` .. `p_pull`,
lines 202-255): `KW HYPHEN register HYPHEN register`. -/
def twoRegTail (rn : List String) (mk : String → String → Instr) (ts : List Tok) :
    PRes (Option Instr) :=
  andThen (expectT .HYPHEN ts) fun (_, ts) =>
  andThen (pRegT rn ts) fun (r1, ts) =>
  andThen (expectT .HYPHEN ts) fun (_, ts) =>
  andThen (pRegT rn ts) fun (r2, ts) =>
  finishInstr (mk r1.text r2.text) ts

/-- `p_print` / `p_pick` (lines 258-263, 289-294): `KW HYPHEN register`. -/
def oneRegTail (rn : List String) (mk : String → Instr) (ts : List Tok) :
    PRes (Option Instr) :=
  andThen (expectT .HYPHEN ts) fun (_, ts) =>
  andThen (pRegT rn ts) fun (r1, ts) =>
  finishInstr (mk r1.text) ts

/-- `registers : registers HYPHEN register` (`p_registers`, lines 274-286),
greedy continuation for `Put`. -/
def regsMore (rn : List String) (acc : List String) : List Tok → PRes (List String × List Tok)
  | t :: ts =>
    if t.ttype = .HYPHEN then
      match ts with
      | t2 :: ts2 =>
        if t2.ttype = .REGISTER then
          let r := regsMore rn (acc ++ [t2.text]) ts2
          (undeclWarn rn t2 ++ r.1, r.2)
        else ([], .error (some t2))
      | [] => ([], .error none)
    else ([], .ok (acc, t :: ts))
  | [] => ([], .ok (acc, []))

/-- `p_put` (lines 266-271): `PUT HYPHEN registers`. -/
def putTail (rn : List String) (ts : List Tok) : PRes (Option Instr) :=
  andThen (expectT .HYPHEN ts) fun (_, ts) =>
  andThen (pRegT rn ts) fun (r1, ts) =>
  andThen (regsMore rn [r1.text] ts) fun (regs, ts) =>
  finishInstr (.PUTC regs) ts

/-- `p_compare` / `p_superior` (lines 297-348): the four-way
plain / `?` / `-label!` / `-label!?` shape shared by `Compare` and
`Superior`. -/
def cmpTail (rn : List String) (mkC mkCQ : String → String → Instr)
    (mkJ mkJQ : String → String → String → Instr) (ts : List Tok) :
    PRes (Option Instr) :=
  andThen (expectT .HYPHEN ts) fun (_, ts) =>
  andThen (pRegT rn ts) fun (r1, ts) =>
  andThen (expectT .HYPHEN ts) fun (_, ts) =>
  andThen (pRegT rn ts) fun (r2, ts) =>
  match ts with
  | [] => ([], .error none)
  | t :: ts1 =>
    if t.ttype = .QUESTION_MARK then finishInstr (mkCQ r1.text r2.text) ts1
    else if t.ttype = .HYPHEN then
      andThen (pRegT rn ts1) fun (t3, ts2) =>
      andThen (labelAfter rn t3 ts2) fun (lbl, ts3) =>
      andThen (expectT .EXCLAMATION_MARK ts3) fun (_, ts4) =>
      match ts4 with
      | q :: ts5 =>
        if q.ttype = .QUESTION_MARK then finishInstr (mkJQ r1.text r2.text lbl) ts5
        else finishInstr (mkJ r1.text r2.text lbl) (q :: ts5)
      | [] => finishInstr (mkJ r1.text r2.text lbl) []
    else finishInstr (mkC r1.text r2.text) (t :: ts1)

/-- `p_jump` (lines 351-356): `JUMP HYPHEN label`. -/
def jumpTail (rn : List String) (ts : List Tok) : PRes (Option Instr) :=
  andThen (expectT .HYPHEN ts) fun (_, ts) =>
  andThen (pRegT rn ts) fun (t1, ts) =>
  andThen (labelAfter rn t1 ts) fun (lbl, ts) =>
  finishInstr (.JMP lbl) ts

/-- `p_number` (lines 153-162): `NUMBER` yields its integer value,
otherwise a word starting with `a` (the `A` token, "a"/"an") yields 1 and
the remaining word (`no`) yields 0. -/
def pNumberVal (t : Tok) : Int :=
  if t.ttype = .NUMBER then (t.num : Int)
  else if t.text.front = 'a' then 1
  else 0

/-- The `does not include 'p' or 'P'` naming warning of
`p_register_declaration` (lines 148-149): `'p' not in name.lower()`. -/
def pNameWarn (t : Tok) : List String :=
  if t.text.toList.any (fun c => c = 'p' ∨ c = 'P') then []
  else ["line " ++ toString t.lineno ++ ": '" ++ t.text ++ "' does not include 'p' or 'P'"]

/-- Close a register declaration: the naming warning is emitted when the
declaration reduces, before the line terminator is checked. -/
def declFinish (nameTok : Tok) (v : Int) (ts : List Tok) : PRes (Option Instr) :=
  match lineEnd ts with
  | .ok _ => (pNameWarn nameTok, .ok (some (.REGISTER nameTok.text v)))
  | .error e => (pNameWarn nameTok, .error e)

/-- `p_register_declaration` (lines 137-150):
`I SPACE HAVE SPACE [number SPACE] REGISTER`.  The declared name is a raw
`REGISTER` token, not a `register` reference, so no undeclared check runs;
the missing-number form defaults the value to 0. -/
def declTail (ts : List Tok) : PRes (Option Instr) :=
  andThen (expectT .SPACE ts) fun (_, ts) =>
  andThen (expectT .HAVE ts) fun (_, ts) =>
  andThen (expectT .SPACE ts) fun (_, ts) =>
  match ts with
  | [] => ([], .error none)
  | t :: ts1 =>
    if t.ttype = .NO ∨ t.ttype = .A ∨ t.ttype = .NUMBER then
      andThen (expectT .SPACE ts1) fun (_, ts2) =>
      andThen (expectT .REGISTER ts2) fun (nameTok, ts3) =>
      declFinish nameTok (pNumberVal t) ts3
    else if t.ttype = .REGISTER then declFinish t 0 ts1
    else ([], .error (some t))

/-- `command : replace | ... | jump` (`p_command`, lines 185-199),
dispatched on the command keyword. -/
def commandTail (rn : List String) (t : Tok) (ts : List Tok) : PRes (Option Instr) :=
  match t.ttype with
  | .REPLACE => twoRegTail rn .MOV ts
  | .APPEND => twoRegTail rn .ADD ts
  | .RIP => twoRegTail rn .SUB ts
  | .MULTIPLY => twoRegTail rn .MUL ts
  | .CHOP => twoRegTail rn .DIV ts
  | .PUSH => twoRegTail rn .STORE ts
  | .PULL => twoRegTail rn .LOAD ts
  | .PRINT => oneRegTail rn .PRINT ts
  | .PUT => putTail rn ts
  | .PICK => oneRegTail rn .GETC ts
  | .COMPARE => cmpTail rn .EQ .NE .JEQ .JNE ts
  | .SUPERIOR => cmpTail rn .GT .GE .JGT .JGE ts
  | .JUMP => jumpTail rn ts
  | _ => ([], .error (some t))

/-- `uh : UH EXCLAMATION_MARK` then `SPACE` then a label or a command
(`p_line` alternatives 3 and 4, lines 115-116). -/
def uhTail (rn : List String) (ts : List Tok) : PRes (Option Instr) :=
  andThen (expectT .EXCLAMATION_MARK ts) fun (_, ts) =>
  andThen (expectT .SPACE ts) fun (_, ts) =>
  match ts with
  | [] => ([], .error none)
  | t :: ts1 =>
    if t.ttype = .REGISTER then
      let r :=
        andThen (labelAfter rn t ts1) fun (lbl, ts2) =>
        finishInstr (.LABEL lbl) ts2
      (undeclWarn rn t ++ r.1, r.2)
    else commandTail rn t ts1

/-- One `line` production (`p_line`, lines 112-123): diagnostics emitted by
the semantic actions, and the line's instruction (`none` for a blank
line) or the first offending token. -/
def parseLine (rn : List String) (ts : List Tok) : PRes (Option Instr) :=
  match skipOptSpace ts with
  | [] => ([], .error none)
  | t :: rest =>
    match t.ttype with
    | .NEWLINE => ([], .ok none)
    | .I => declTail rest
    | .UH => uhTail rn rest
    | .REGISTER =>
      let r :=
        andThen (labelAfter rn t rest) fun (lbl, ts2) =>
        finishInstr (.LABEL lbl) ts2
      (undeclWarn rn t ++ r.1, r.2)
    | _ => ([], .error (some t))

/-- Split the token stream at `NEWLINE` tokens, each line keeping its
terminator; a final unterminated fragment becomes a last line without a
`NEWLINE`. -/
def takeLine : List Tok → List Tok × List Tok
  | [] => ([], [])
  | t :: ts =>
    if t.ttype = .NEWLINE then ([t], ts)
    else
      let r := takeLine ts
      (t :: r.1, r.2)

theorem takeLine_len : ∀ ts : List Tok, (takeLine ts).2.length ≤ ts.length := by
  intro ts
  induction ts with
  | nil => simp [takeLine]
  | cons t ts ih =>
    by_cases h : t.ttype = TokType.NEWLINE
    · simp [takeLine, h]
    · simp [takeLine, h]
      omega

/-- Fuelled for kernel evaluation: each step consumes at least one token,
so fuel `length + 1` (supplied by `splitLines`) never runs out. -/
def splitLinesF : Nat → List Tok → List (List Tok)
  | 0, _ => []
  | _ + 1, [] => []
  | f + 1, t :: ts =>
    let r := takeLine (t :: ts)
    r.1 :: splitLinesF f r.2

def splitLines (ts : List Tok) : List (List Tok) :=
  splitLinesF (ts.length + 1) ts

/-- The accumulated parser state: the two name tables (module globals
`register_names` / `label_names`, lines 73-74, reset by `parse`), the
diagnostics stream, the sticky failure flag (`parser.error`) and the
instruction list built so far. -/
structure PState where
  registerNames : List String
  labelNames : List String
  diags : List String
  err : Bool
  acc : List Instr
deriving DecidableEq, Repr

def initP : PState := ⟨[], [], [], false, []⟩

/-- `add_program` (lines 77-86): append the instruction, then record a new
register name, or record a label name — checking the label only against
`register_names` and warning when it is found there. -/
def addProgram (st : PState) (i : Instr) : PState :=
  let st1 := { st with acc := st.acc ++ [i] }
  match i with
  | .REGISTER n _ =>
    if n ∈ st1.registerNames then st1
    else { st1 with registerNames := st1.registerNames ++ [n] }
  | .LABEL n =>
    if n ∈ st1.registerNames then
      { st1 with diags := st1.diags ++ ["'" ++ n ++ "' label already exists"] }
    else { st1 with labelNames := st1.labelNames ++ [n] }
  | _ => st1

/-- `p_program_error` message text (lines 102-107): the token's value, with
the literal two characters `\n` substituted for a newline token; a
`NUMBER` token's value is its integer. -/
def tokErrText (t : Tok) : String :=
  if t.ttype = .NEWLINE then "\\n"
  else if t.ttype = .NUMBER then toString t.num
  else t.text

def syntaxErrorMsg (t : Tok) : String :=
  "line " ++ toString t.lineno ++ ": '" ++ tokErrText t ++ "' syntax error"

/-- Process one source line: its diagnostics are always appended; a syntax
error additionally reports the offending token and makes the failure flag
sticky; after a failure `add_program` is no longer reached (the `program`
value is `None`), so the name tables and the instruction list freeze while
diagnostics of later lines are still emitted. -/
def processLine (st : PState) (l : List Tok) : PState :=
  let r := parseLine st.registerNames l
  let st1 := { st with diags := st.diags ++ r.1 }
  match r.2 with
  | .error none => { st1 with diags := st1.diags ++ ["syntax error at eof"], err := true }
  | .error (some t) => { st1 with diags := st1.diags ++ [syntaxErrorMsg t], err := true }
  | .ok none => st1
  | .ok (some i) => if st1.err then st1 else addProgram st1 i

/-- Parse a token stream.  Empty input has no `line` at all, which the
grammar rejects at end of input. -/
def parseTokens (ts : List Tok) : PState :=
  match splitLines ts with
  | [] => { initP with diags := ["syntax error at eof"], err := true }
  | ls => ls.foldl processLine initP

/-- `parse` (lines 367-377): lex, parse, and return `none` when the parse
failed; all diagnostics (in Python, interleaved on stderr) are returned
alongside. -/
def parse (src : String) : Option (List Instr) × List String :=
  let lx := ppapLex src
  let st := parseTokens lx.1
  (if st.err then none else some st.acc, lx.2 ++ st.diags)

/-! ## Python `int(a / b)`

`run` computes `Div` as `int(registers[op[1]] / registers[op[2]])`
(ppap.py line 411).  Python's `/` on two integers is *float* division: the
exact rational `a / b` is rounded to the nearest IEEE-754 binary64 value
(ties to even), raising `OverflowError` when the magnitude reaches
`2^1024`; `int` then truncates that double toward zero.  The rounding is
modelled exactly below with integer arithmetic; this model was checked
against CPython on 200000 random operand pairs of up to 200 bits and on
the overflow / subnormal boundary cases.  (In the subnormal range the
double itself differs from this unbounded-exponent rounding, but both lie
strictly between 0 and 1, so the truncation — all that `int` observes — is
0 either way.) -/

/-- Floor of log2, by fuelled halving (fuel `n` suffices for any `n ≥ 1`;
this avoids well-founded recursion so that kernel evaluation works). -/
def log2fuel : Nat → Nat → Nat
  | 0, _ => 0
  | f + 1, n => if n < 2 then 0 else log2fuel f (n / 2) + 1

def flog2 (n : Nat) : Nat := log2fuel n n

/-- Round the positive rational `n / d` to nearest (ties to even) as a
dyadic `m * 2^e` with `2^52 ≤ m < 2^53`. -/
def rnQuot (n d : Nat) : Nat × Int :=
  let e1 : Int := (flog2 n : Int) - (flog2 d : Int) - 52
  let num1 := if 0 ≤ e1 then n else n * 2 ^ (-e1).toNat
  let den1 := if 0 ≤ e1 then d * 2 ^ e1.toNat else d
  let e : Int := if num1 / den1 < 2 ^ 52 then e1 - 1 else e1
  let num := if 0 ≤ e then n else n * 2 ^ (-e).toNat
  let den := if 0 ≤ e then d * 2 ^ e.toNat else d
  let q := num / den
  let r := num % den
  let m :=
    if 2 * r < den then q
    else if den < 2 * r then q + 1
    else if q % 2 = 0 then q else q + 1
  if m = 2 ^ 53 then (2 ^ 52, e + 1) else (m, e)

/-- `int(n / d)` for positive naturals: truncation of the rounded double;
`none` models `OverflowError` (the rounded magnitude reaches `2^1024`,
i.e. `e ≥ 972` with `m ≥ 2^52`). -/
def truncFloatDiv (n d : Nat) : Option Nat :=
  if n = 0 then some 0
  else
    let me := rnQuot n d
    if 972 ≤ me.2 then none
    else if 0 ≤ me.2 then some (me.1 * 2 ^ me.2.toNat)
    else some (me.1 / 2 ^ (-me.2).toNat)

/-- `int(a / b)` for `b ≠ 0`: float division is sign-symmetric and `int`
truncates toward zero, so compute on magnitudes and restore the sign. -/
def pyIntDiv (a b : Int) : Option Int :=
  match truncFloatDiv a.natAbs b.natAbs with
  | none => none
  | some t => if (0 ≤ a) = (0 ≤ b) then some (t : Int) else some (-(t : Int))

/-! ## Interpreter (`run`, ppap.py lines 380-467) -/

/-- The machine state: the `registers` and `memory` dicts are association
lists where the most recent binding (at the head) shadows older ones,
`output` is what has been written to stdout, `input` the remaining stdin
characters.  `pc` is incremented before dispatch, as in the source. -/
structure MachineState where
  registers : List (String × Int)
  memory : List (Int × Int)
  pc : Nat
  output : String
  input : List Char
deriving DecidableEq, Repr

/-- The Python exceptions `run` can raise: dict lookup `KeyError`, the two
out-of-range `ValueError`s of `Store`/`Load` (lines 416 and 422),
`TypeError` from `ord('')` at end of input (line 435), `ZeroDivisionError`
and `OverflowError` from `int(a / b)` (line 411), and the error raised
when a character value cannot be written (`chr` rejects values outside
`[0, 0x110000)`; a surrogate code point is accepted by `chr` but cannot be
encoded to stdout, which is equally fatal). -/
inductive ErrKind where
  | keyError | storeRange | loadRange | typeError
  | zeroDivision | overflow | encodeError
deriving DecidableEq, Repr

/-- One dispatch step either succeeds or raises; either way it yields the
machine state at that moment (an exception aborts `run` with all
registers and memory as they were). -/
inductive StepResult where
  | ok (s : MachineState)
  | err (e : ErrKind) (s : MachineState)
deriving DecidableEq, Repr

def setReg (s : MachineState) (n : String) (v : Int) : MachineState :=
  { s with registers := (n, v) :: s.registers }

def memorySize : Int := 16777216

/-- `PUTC` body (lines 428-432): `print(chr(registers[r]), end='')` for
each listed register, left to right. -/
def putcList (regs : List String) (s : MachineState) : StepResult :=
  match regs with
  | [] => .ok s
  | r :: rest =>
    match s.registers.lookup r with
    | none => .err .keyError s
    | some v =>
      if 0 ≤ v ∧ Nat.isValidChar v.toNat then
        putcList rest { s with output := s.output.push (Char.ofNat v.toNat) }
      else .err .encodeError s

/-- The body of the `while` loop of `run` (lines 390-467), dispatching on
the instruction tag; `s.pc` has already been advanced past this
instruction.  Evaluation order of the dict accesses follows the source
lines (for `x [k] ⊕= v` Python reads `x[k]` before the right-hand side;
for `Store` the address is read and range-checked before the value
register). -/
def execOp (lm : List (String × Nat)) (op : Instr) (s : MachineState) : StepResult :=
  match op with
  | .REGISTER n v => .ok (setReg s n v)
  | .LABEL _ => .ok s
  | .MOV dst src =>
    match s.registers.lookup src with
    | none => .err .keyError s
    | some v => .ok (setReg s dst v)
  | .ADD dst src =>
    match s.registers.lookup dst with
    | none => .err .keyError s
    | some a =>
      match s.registers.lookup src with
      | none => .err .keyError s
      | some b => .ok (setReg s dst (a + b))
  | .SUB dst src =>
    match s.registers.lookup dst with
    | none => .err .keyError s
    | some a =>
      match s.registers.lookup src with
      | none => .err .keyError s
      | some b => .ok (setReg s dst (a - b))
  | .MUL dst src =>
    match s.registers.lookup dst with
    | none => .err .keyError s
    | some a =>
      match s.registers.lookup src with
      | none => .err .keyError s
      | some b => .ok (setReg s dst (a * b))
  | .DIV dst src =>
    match s.registers.lookup dst with
    | none => .err .keyError s
    | some a =>
      match s.registers.lookup src with
      | none => .err .keyError s
      | some b =>
        if b = 0 then .err .zeroDivision s
        else
          match pyIntDiv a b with
          | none => .err .overflow s
          | some v => .ok (setReg s dst v)
  | .STORE src addrReg =>
    match s.registers.lookup addrReg with
    | none => .err .keyError s
    | some addr =>
      if memorySize ≤ addr ∨ addr < 0 then .err .storeRange s
      else
        match s.registers.lookup src with
        | none => .err .keyError s
        | some v => .ok { s with memory := (addr, v) :: s.memory }
  | .LOAD dst addrReg =>
    match s.registers.lookup addrReg with
    | none => .err .keyError s
    | some addr =>
      if memorySize ≤ addr ∨ addr < 0 then .err .loadRange s
      else .ok (setReg s dst ((s.memory.lookup addr).getD 0))
  | .PRINT r =>
    match s.registers.lookup r with
    | none => .err .keyError s
    | some v => .ok { s with output := s.output ++ toString v }
  | .PUTC regs => putcList regs s
  | .GETC dst =>
    match s.input with
    | [] => .err .typeError s
    | c :: rest => .ok { setReg s dst (c.toNat : Int) with input := rest }
  | .EQ a b =>
    match s.registers.lookup a with
    | none => .err .keyError s
    | some va =>
      match s.registers.lookup b with
      | none => .err .keyError s
      | some vb => .ok (setReg s a (if va = vb then 1 else 0))
  | .NE a b =>
    match s.registers.lookup a with
    | none => .err .keyError s
    | some va =>
      match s.registers.lookup b with
      | none => .err .keyError s
      | some vb => .ok (setReg s a (if va ≠ vb then 1 else 0))
  | .GT a b =>
    match s.registers.lookup a with
    | none => .err .keyError s
    | some va =>
      match s.registers.lookup b with
      | none => .err .keyError s
      | some vb => .ok (setReg s a (if vb < va then 1 else 0))
  | .GE a b =>
    match s.registers.lookup a with
    | none => .err .keyError s
    | some va =>
      match s.registers.lookup b with
      | none => .err .keyError s
      | some vb => .ok (setReg s a (if vb ≤ va then 1 else 0))
  | .JEQ a b lbl =>
    match s.registers.lookup a with
    | none => .err .keyError s
    | some va =>
      match s.registers.lookup b with
      | none => .err .keyError s
      | some vb =>
        if va = vb then
          match lm.lookup lbl with
          | none => .err .keyError s
          | some i => .ok { s with pc := i }
        else .ok s
  | .JNE a b lbl =>
    match s.registers.lookup a with
    | none => .err .keyError s
    | some va =>
      match s.registers.lookup b with
      | none => .err .keyError s
      | some vb =>
        if va ≠ vb then
          match lm.lookup lbl with
          | none => .err .keyError s
          | some i => .ok { s with pc := i }
        else .ok s
  | .JGT a b lbl =>
    match s.registers.lookup a with
    | none => .err .keyError s
    | some va =>
      match s.registers.lookup b with
      | none => .err .keyError s
      | some vb =>
        if vb < va then
          match lm.lookup lbl with
          | none => .err .keyError s
          | some i => .ok { s with pc := i }
        else .ok s
  | .JGE a b lbl =>
    match s.registers.lookup a with
    | none => .err .keyError s
    | some va =>
      match s.registers.lookup b with
      | none => .err .keyError s
      | some vb =>
        if vb ≤ va then
          match lm.lookup lbl with
          | none => .err .keyError s
          | some i => .ok { s with pc := i }
        else .ok s
  | .JMP lbl =>
    match lm.lookup lbl with
    | none => .err .keyError s
    | some i => .ok { s with pc := i }

/-- The label table built by the forward scan before execution
(lines 381-385): a later duplicate label overwrites an earlier one, which
the head-shadowing association list reproduces. -/
def buildLabelMap (data : List Instr) : List (String × Nat) :=
  (data.enum.foldl
    (fun acc p =>
      match p.2 with
      | .LABEL n => (n, p.1) :: acc
      | _ => acc)
    [])

/-- The result of a complete run; `out` means the step budget was
exhausted (the source program may loop forever, so the loop is fuelled). -/
inductive RunResult where
  | done (s : MachineState)
  | err (e : ErrKind) (s : MachineState)
  | out (s : MachineState)
deriving DecidableEq, Repr

/-- The `while pc < len(data)` loop of `run`: fetch, advance `pc`,
dispatch. -/
def runFuel (data : List Instr) (lm : List (String × Nat)) :
    Nat → MachineState → RunResult
  | 0, s => .out s
  | fuel + 1, s =>
    if h : s.pc < data.length then
      match execOp lm data[s.pc] { s with pc := s.pc + 1 } with
      | .ok s2 => runFuel data lm fuel s2
      | .err e s2 => .err e s2
    else .done s

/-- `run(data)` on a given stdin, with a step budget. -/
def runProg (data : List Instr) (input : List Char) (fuel : Nat) : RunResult :=
  runFuel data (buildLabelMap data) fuel ⟨[], [], 0, "", input⟩

/-! ## C lowering (`to_c`, ppap.py lines 470-560)

The pass prints C source to stdout; here it builds the same text (every
`print(x)` contributes `x` followed by one newline). -/

/-- `c_label` (lines 486-487): `'_'.join(label.split('-'))`, i.e. each
hyphen becomes an underscore. -/
def c_label (l : String) : String :=
  String.map (fun c => if c = '-' then '_' else c) l

/-- First pass of `to_c` (lines 474-480): one `int` declaration per
first-seen register name, in order. -/
def declText : List Instr → List String → String
  | [], _ => ""
  | .REGISTER n _ :: rest, seen =>
    if n ∈ seen then declText rest seen
    else "    int " ++ n ++ ";\n" ++ declText rest (seen ++ [n])
  | _ :: rest, seen => declText rest seen

/-- `need_memory` (lines 479-480): set when any `Store`/`Load` occurs. -/
def needMemory (data : List Instr) : Bool :=
  data.any fun op =>
    match op with
    | .STORE _ _ => true
    | .LOAD _ _ => true
    | _ => false

/-- `ternary_operator` (lines 489-490).  Note the emitted text: the
statement is **not** terminated by a semicolon in the source. -/
def ternaryText (a b : String) (cond : String) : String :=
  "    " ++ a ++ " = (" ++ a ++ " " ++ cond ++ " " ++ b ++ " ? 1 : 0)\n"

/-- `conditional_jump` (lines 492-493). -/
def condJumpText (a b lbl : String) (cond : String) : String :=
  "    if (" ++ a ++ " " ++ cond ++ " " ++ b ++ ") \x7b\n        goto " ++
    c_label lbl ++ ";\n    \x7d\n"

/-- The statement emitted for one instruction (lines 495-559). -/
def stmtText (op : Instr) : String :=
  match op with
  | .REGISTER n v => "    " ++ n ++ " = " ++ toString v ++ ";\n"
  | .LABEL l => "\n" ++ c_label l ++ ":\n"
  | .MOV a b => "    " ++ a ++ " = " ++ b ++ ";\n"
  | .ADD a b => "    " ++ a ++ " += " ++ b ++ ";\n"
  | .SUB a b => "    " ++ a ++ " -= " ++ b ++ ";\n"
  | .MUL a b => "    " ++ a ++ " *= " ++ b ++ ";\n"
  | .DIV a b => "    " ++ a ++ " /= " ++ b ++ ";\n"
  | .STORE a b => "    memory[" ++ b ++ "] = " ++ a ++ ";\n"
  | .LOAD a b => "    " ++ a ++ " = memory[" ++ b ++ "];\n"
  | .PRINT a => "    printf(\"%d\", " ++ a ++ ");\n"
  | .PUTC regs => String.join (regs.map fun r => "    putchar(" ++ r ++ ");\n")
  | .GETC a => "    " ++ a ++ " = getchar();\n"
  | .EQ a b => ternaryText a b "=="
  | .NE a b => ternaryText a b "!="
  | .GT a b => ternaryText a b ">"
  | .GE a b => ternaryText a b ">="
  | .JEQ a b l => condJumpText a b l "=="
  | .JNE a b l => condJumpText a b l "!="
  | .JGT a b l => condJumpText a b l ">"
  | .JGE a b l => condJumpText a b l ">="
  | .JMP l => "    goto " ++ c_label l ++ ";\n"

/-- `to_c` (lines 470-560): the complete emitted C translation unit. -/
def to_c (data : List Instr) : String :=
  "#include <stdio.h>\n#include <stdlib.h>\n\nint main(void) \x7b\n" ++
  declText data [] ++
  "\n" ++
  (if needMemory data then
    "#define MEMORY_SIZE (1 << 24)\n    int *memory = calloc(MEMORY_SIZE, sizeof(int));\n\n"
  else "") ++
  String.join (data.map stmtText) ++
  "    return 0;\n\x7d\n"

/-! ## Lookup helpers -/

theorem lookup_cons_self (n : String) (v : Int) (l : List (String × Int)) :
    ((n, v) :: l).lookup n = some v := by
  simp [List.lookup]

theorem lookup_cons_ne (n k : String) (v : Int) (l : List (String × Int))
    (h : k ≠ n) : ((n, v) :: l).lookup k = l.lookup k := by
  have hb : (k == n) = false := beq_false_of_ne h
  simp [List.lookup, hb]

/-! ## The claims -/

/-- Claim C1.  The spec demands byte-identical stdout from interpreting and
from lowering-then-running-natively, for every program whose parse
succeeds.  The program `I have a P / Uh! Compare-P-P / Uh! Print-P` parses
cleanly; the interpreter prints `1`; but `to_c` emits the comparison
statement `P = (P == P ? 1 : 0)` with no terminating semicolon
(`ternary_operator`, ppap.py line 490), so the emitted text is not a valid
C program and native compilation fails before producing any output. -/
theorem c1_interpreter_vs_to_c :
    (parse "I have a P\nUh! Compare-P-P\nUh! Print-P\n").1 =
      some [.REGISTER "P" 1, .EQ "P" "P", .PRINT "P"] ∧
    runProg [.REGISTER "P" 1, .EQ "P" "P", .PRINT "P"] [] 10 =
      .done ⟨[("P", 1), ("P", 1)], [], 3, "1", []⟩ ∧
    to_c [.REGISTER "P" 1, .EQ "P" "P", .PRINT "P"] =
      "#include <stdio.h>\n#include <stdlib.h>\n\nint main(void) \x7b\n" ++
      "    int P;\n\n" ++
      "    P = 1;\n" ++
      "    P = (P == P ? 1 : 0)\n" ++
      "    printf(\"%d\", P);\n" ++
      "    return 0;\n\x7d\n" := by
  refine ⟨by decide, by decide, by decide⟩

/-- Counterexample to claim C3 as stated: when both operands of a
comparison name the same register, `EQ P P` overwrites that register —
the second operand's register changes from 5 to 1. -/
theorem c3_alias_cex :
    execOp [] (.EQ "P" "P") ⟨[("P", 5)], [], 0, "", []⟩ =
      .ok ⟨[("P", 1), ("P", 5)], [], 0, "", []⟩ ∧
    ([(("P" : String), (5 : Int))].lookup "P" = some 5) ∧
    ([(("P" : String), (1 : Int)), ("P", 5)].lookup "P" = some 1) ∧
    (5 : Int) ≠ 1 := by
  refine ⟨by decide, by decide, by decide, by decide⟩

/-- Claim C3 (amended).  Every successful `EQ`/`NE`/`GT`/`GE` step sets the
first operand register to exactly 0 or 1, and leaves the second operand
register unchanged whenever it is a different register from the first
(when both operands name the same register the result overwrites it). -/
theorem c3_compare_sets_bool (lm : List (String × Nat)) (a b : String)
    (s s' : MachineState) :
    (execOp lm (.EQ a b) s = .ok s' →
      (s'.registers.lookup a = some 0 ∨ s'.registers.lookup a = some 1) ∧
      (b ≠ a → s'.registers.lookup b = s.registers.lookup b)) ∧
    (execOp lm (.NE a b) s = .ok s' →
      (s'.registers.lookup a = some 0 ∨ s'.registers.lookup a = some 1) ∧
      (b ≠ a → s'.registers.lookup b = s.registers.lookup b)) ∧
    (execOp lm (.GT a b) s = .ok s' →
      (s'.registers.lookup a = some 0 ∨ s'.registers.lookup a = some 1) ∧
      (b ≠ a → s'.registers.lookup b = s.registers.lookup b)) ∧
    (execOp lm (.GE a b) s = .ok s' →
      (s'.registers.lookup a = some 0 ∨ s'.registers.lookup a = some 1) ∧
      (b ≠ a → s'.registers.lookup b = s.registers.lookup b)) := by
  refine ⟨?_, ?_, ?_, ?_⟩ <;>
  · intro h
    cases hva : s.registers.lookup a with
    | none => simp [execOp, hva] at h
    | some va =>
      cases hvb : s.registers.lookup b with
      | none => simp [execOp, hva, hvb] at h
      | some vb =>
        simp only [execOp, hva, hvb] at h
        cases h
        constructor
        · split <;> simp [setReg, lookup_cons_self]
        · intro hne
          simp [setReg, lookup_cons_ne _ _ _ _ hne, hvb]

/-- Witness for `c3_compare_sets_bool` at a concrete state. -/
theorem c3_compare_sets_bool_witness :
    (([(("P" : String), (0 : Int)), ("P", 3), ("Q", 4)].lookup "P" = some 0 ∨
      ([(("P" : String), (0 : Int)), ("P", 3), ("Q", 4)].lookup "P" = some 1)) ∧
     ((("Q" : String) ≠ "P") →
       [(("P" : String), (0 : Int)), ("P", 3), ("Q", 4)].lookup "Q" =
         [(("P" : String), (3 : Int)), ("Q", 4)].lookup "Q")) := by
  exact (c3_compare_sets_bool [] "P" "Q" ⟨[("P", 3), ("Q", 4)], [], 0, "", []⟩
    ⟨[("P", 0), ("P", 3), ("Q", 4)], [], 0, "", []⟩).1 (by decide)

/-- Claim C4.  `Div` is computed as `int(registers[a] / registers[b])`
(ppap.py line 411), which rounds the quotient through a binary64 float
before truncating.  For small operands this agrees with toward-zero
integer division (`-7 / 2` does give `-3`), but it is **not** the
toward-zero quotient for all integer operands: with
`P = 49999999999999999` and `Q = 10000000000000000` the float rounds up to
`5.0` and the interpreter stores 5, while the toward-zero quotient is 4. -/
theorem c4_div_float_rounding :
    execOp [] (.DIV "P" "Q")
        ⟨[("P", 49999999999999999), ("Q", 10000000000000000)], [], 0, "", []⟩ =
      .ok ⟨[("P", 5), ("P", 49999999999999999), ("Q", 10000000000000000)],
        [], 0, "", []⟩ ∧
    Int.tdiv 49999999999999999 10000000000000000 = 4 ∧
    execOp [] (.DIV "P" "Q") ⟨[("P", -7), ("Q", 2)], [], 0, "", []⟩ =
      .ok ⟨[("P", -3), ("P", -7), ("Q", 2)], [], 0, "", []⟩ ∧
    Int.tdiv (-7) 2 = -3 := by
  refine ⟨by decide, by decide, by decide, by decide⟩

/-- Counterexample to claim C6 as stated: an in-range address does not
guarantee that `Store` raises no error — with the value register `P`
unbound (which the parser permits, see C2) the dict access
`registers[op[1]]` raises `KeyError` even though the address 0 is in
range. -/
theorem c6_inrange_store_keyerror_cex :
    execOp [] (.STORE "P" "Q") ⟨[("Q", 0)], [], 0, "", []⟩ =
      .err .keyError ⟨[("Q", 0)], [], 0, "", []⟩ ∧
    (0 : Int) < memorySize := by
  refine ⟨by decide, by decide⟩

/-- Claim C6 (amended).  With the address register holding `a`: if `a` is
outside `[0, 2^24)` both `Store` and `Load` raise the fatal range error,
leaving the state (memory included) untouched — the address is never
clamped; if `a` is in range, `Load` always succeeds, and `Store` succeeds
provided the value register is bound (an unbound value register still
raises a lookup error). -/
theorem c6_address_range (lm : List (String × Nat)) (src dst addrReg : String)
    (s : MachineState) (a : Int)
    (hA : s.registers.lookup addrReg = some a) :
    ((memorySize ≤ a ∨ a < 0) →
      execOp lm (.STORE src addrReg) s = .err .storeRange s ∧
      execOp lm (.LOAD dst addrReg) s = .err .loadRange s) ∧
    (0 ≤ a → a < memorySize →
      execOp lm (.LOAD dst addrReg) s =
        .ok (setReg s dst ((s.memory.lookup a).getD 0)) ∧
      ∀ v, s.registers.lookup src = some v →
        execOp lm (.STORE src addrReg) s =
          .ok { s with memory := (a, v) :: s.memory }) := by
  constructor
  · intro hout
    constructor
    · simp only [execOp, hA]
      rw [if_pos hout]
    · simp only [execOp, hA]
      rw [if_pos hout]
  · intro h0 h1
    constructor
    · simp only [execOp, hA]
      rw [if_neg (by omega)]
    · intro v hv
      simp only [execOp, hA, hv]
      rw [if_neg (by omega)]

/-- Witness for `c6_address_range`: a concrete out-of-range `Store` error
and a concrete in-range `Load` success. -/
theorem c6_address_range_witness :
    execOp [] (.STORE "P" "Q") ⟨[("Q", 16777216), ("P", 7)], [], 0, "", []⟩ =
      .err .storeRange ⟨[("Q", 16777216), ("P", 7)], [], 0, "", []⟩ ∧
    execOp [] (.LOAD "R" "Q") ⟨[("Q", 5)], [(5, 9)], 0, "", []⟩ =
      .ok ⟨[("R", 9), ("Q", 5)], [(5, 9)], 0, "", []⟩ := by
  constructor
  · exact ((c6_address_range [] "P" "R" "Q"
      ⟨[("Q", 16777216), ("P", 7)], [], 0, "", []⟩ 16777216 (by decide)).1
      (by decide)).1
  · exact (((c6_address_range [] "P" "R" "Q"
      ⟨[("Q", 5)], [(5, 9)], 0, "", []⟩ 5 (by decide)).2
      (by decide) (by decide)).1).trans (by decide)

/-- Claim C7.  With an in-range address `a` held (unchanged) in the
address register: `Store` of `v` followed by `Load` through the same
address register puts `v` in the `Load` destination; and a `Load` from an
address no `Store` has written yields 0 (`memory.get(addr, 0)`,
ppap.py line 423). -/
theorem c7_store_load (lm : List (String × Nat)) (src dst addrReg : String)
    (s : MachineState) (a v : Int)
    (hA : s.registers.lookup addrReg = some a) (h0 : 0 ≤ a) (h1 : a < memorySize)
    (hv : s.registers.lookup src = some v) :
    execOp lm (.STORE src addrReg) s = .ok { s with memory := (a, v) :: s.memory } ∧
    execOp lm (.LOAD dst addrReg) { s with memory := (a, v) :: s.memory } =
      .ok (setReg { s with memory := (a, v) :: s.memory } dst v) ∧
    (setReg { s with memory := (a, v) :: s.memory } dst v).registers.lookup dst =
      some v ∧
    (s.memory.lookup a = none →
      execOp lm (.LOAD dst addrReg) s = .ok (setReg s dst 0) ∧
      (setReg s dst 0).registers.lookup dst = some 0) := by
  refine ⟨?_, ?_, ?_, ?_⟩
  · simp only [execOp, hA, hv]
    rw [if_neg (by omega)]
  · simp only [execOp, hA]
    rw [if_neg (by omega)]
    congr 1
    simp [setReg]
  · simp [setReg, lookup_cons_self]
  · intro hnone
    constructor
    · simp only [execOp, hA]
      rw [if_neg (by omega)]
      simp [hnone]
    · simp [setReg, lookup_cons_self]

/-- Witness for `c7_store_load` at a concrete state. -/
theorem c7_store_load_witness :
    execOp [] (.STORE "Pv" "Pa") ⟨[("Pv", 42), ("Pa", 100)], [], 0, "", []⟩ =
      .ok ⟨[("Pv", 42), ("Pa", 100)], [(100, 42)], 0, "", []⟩ ∧
    execOp [] (.LOAD "Pd" "Pa") ⟨[("Pv", 42), ("Pa", 100)], [(100, 42)], 0, "", []⟩ =
      .ok ⟨[("Pd", 42), ("Pv", 42), ("Pa", 100)], [(100, 42)], 0, "", []⟩ := by
  have h := c7_store_load [] "Pv" "Pd" "Pa"
    ⟨[("Pv", 42), ("Pa", 100)], [], 0, "", []⟩ 100 42
    (by decide) (by decide) (by decide) (by decide)
  exact ⟨h.1.trans (by decide), (h.2.1).trans (by decide)⟩

/-- Claim C10.  When input is exhausted, `sys.stdin.read(1)` returns the
empty string and `ord('')` raises `TypeError` (ppap.py lines 433-435): the
step fails fatally with the registers exactly as they were — no sentinel
is stored. -/
theorem c10_getc_eof (lm : List (String × Nat)) (dst : String)
    (regs : List (String × Int)) (mem : List (Int × Int)) (pc : Nat)
    (out : String) :
    execOp lm (.GETC dst) ⟨regs, mem, pc, out, []⟩ =
      .err .typeError ⟨regs, mem, pc, out, []⟩ := rfl

/-- Counterexample to claim C2 as stated: `Uh! Replace-Q-R` with both
registers undeclared produces both warnings, yet the `MOV` instruction is
**not** suppressed — it is the instruction list returned by `parse`. -/
theorem c2_undeclared_not_suppressed_cex :
    (parse "Uh! Replace-Q-R\n").1 = some [.MOV "Q" "R"] ∧
    (parse "Uh! Replace-Q-R\n").2 =
      ["line 1: 'Q' is an undeclared register",
       "line 1: 'R' is an undeclared register"] := by
  refine ⟨by decide, by decide⟩

/-- Claim C2 (amended).  A line referencing undeclared registers (here the
`Replace` command of `p_replace`) emits `line <n>: '<name>' is an
undeclared register` for each reference not in the register table, but the
line's instruction is produced regardless: `p_register` always returns the
name, so the `None` suppression guards never fire and the instruction
appears in the parsed list. -/
theorem c2_undeclared_warning_not_suppressed (rn : List String) (x y : String)
    (lx ly l1 : Nat) :
    parseLine rn
      [⟨.UH, "Uh", 0, l1⟩, ⟨.EXCLAMATION_MARK, "!", 0, l1⟩,
       ⟨.SPACE, " ", 0, l1⟩, ⟨.REPLACE, "Replace", 0, l1⟩,
       ⟨.HYPHEN, "-", 0, l1⟩, ⟨.REGISTER, x, 0, lx⟩,
       ⟨.HYPHEN, "-", 0, l1⟩, ⟨.REGISTER, y, 0, ly⟩,
       ⟨.NEWLINE, "\n", 0, l1⟩] =
      ((if x ∈ rn then []
        else ["line " ++ toString lx ++ ": '" ++ x ++ "' is an undeclared register"]) ++
       (if y ∈ rn then []
        else ["line " ++ toString ly ++ ": '" ++ y ++ "' is an undeclared register"]),
       .ok (some (.MOV x y))) := by
  by_cases hx : x ∈ rn <;> by_cases hy : y ∈ rn <;>
    simp [parseLine, skipOptSpace, uhTail, andThen, expectT, commandTail,
      twoRegTail, pRegT, undeclWarn, finishInstr, lineEnd, hx, hy]

/-- Counterexample to claim C5 as stated: re-declaring the bare label
`P-P` on line 3 (already declared on line 2) produces **no**
already-exists warning — the diagnostics stream is empty — and the label
is simply appended again. -/
theorem c5_duplicate_label_no_warning_cex :
    (parse "I have a P\nP-P\nP-P\n").1 =
      some [.REGISTER "P" 1, .LABEL "P-P", .LABEL "P-P"] ∧
    (parse "I have a P\nP-P\nP-P\n").2 = [] := by
  refine ⟨by decide, by decide⟩

/-- Claim C5 (amended).  `add_program` checks a new label name only
against the register-name table, never against previously declared
labels: the already-exists warning is emitted exactly when the label name
collides with a declared register name (and a register declaration is
recorded without any duplicate warning).  Since grammar-built label names
always contain a hyphen and lexed register names cannot, re-declaring a
label is silently accepted; the parse still succeeds. -/
theorem c5_label_duplicate_check (st : PState) (n : String) (v : Int) :
    addProgram st (.LABEL n) =
      (if n ∈ st.registerNames then
        { st with acc := st.acc ++ [.LABEL n],
                  diags := st.diags ++ ["'" ++ n ++ "' label already exists"] }
      else
        { st with acc := st.acc ++ [.LABEL n],
                  labelNames := st.labelNames ++ [n] }) ∧
    addProgram st (.REGISTER n v) =
      (if n ∈ st.registerNames then { st with acc := st.acc ++ [.REGISTER n v] }
       else
        { st with acc := st.acc ++ [.REGISTER n v],
                  registerNames := st.registerNames ++ [n] }) := by
  constructor <;> (by_cases h : n ∈ st.registerNames <;> simp [addProgram, h])

/-- Claim C8.  The four surface forms of a register declaration
(`p_register_declaration` with `p_number`): the negation keyword `no`
gives initial value 0, the indefinite article `a`/`an` gives 1, a digit
literal gives its value, and the absent-number form gives 0; and the
interpreter, every time it executes the resulting `Declare`, sets the
register to exactly that value. -/
theorem c8_declare_initial_value (rn : List String) (n xt : String)
    (k l1 l2 : Nat) (lm : List (String × Nat)) (v : Int) (s : MachineState) :
    parseLine rn
      [⟨.I, "I", 0, l1⟩, ⟨.SPACE, " ", 0, l1⟩, ⟨.HAVE, "have", 0, l1⟩,
       ⟨.SPACE, " ", 0, l1⟩, ⟨.NO, "no", 0, l1⟩, ⟨.SPACE, " ", 0, l1⟩,
       ⟨.REGISTER, n, 0, l2⟩, ⟨.NEWLINE, "\n", 0, l1⟩] =
      (pNameWarn ⟨.REGISTER, n, 0, l2⟩, .ok (some (.REGISTER n 0))) ∧
    parseLine rn
      [⟨.I, "I", 0, l1⟩, ⟨.SPACE, " ", 0, l1⟩, ⟨.HAVE, "have", 0, l1⟩,
       ⟨.SPACE, " ", 0, l1⟩, ⟨.A, "a", 0, l1⟩, ⟨.SPACE, " ", 0, l1⟩,
       ⟨.REGISTER, n, 0, l2⟩, ⟨.NEWLINE, "\n", 0, l1⟩] =
      (pNameWarn ⟨.REGISTER, n, 0, l2⟩, .ok (some (.REGISTER n 1))) ∧
    parseLine rn
      [⟨.I, "I", 0, l1⟩, ⟨.SPACE, " ", 0, l1⟩, ⟨.HAVE, "have", 0, l1⟩,
       ⟨.SPACE, " ", 0, l1⟩, ⟨.A, "an", 0, l1⟩, ⟨.SPACE, " ", 0, l1⟩,
       ⟨.REGISTER, n, 0, l2⟩, ⟨.NEWLINE, "\n", 0, l1⟩] =
      (pNameWarn ⟨.REGISTER, n, 0, l2⟩, .ok (some (.REGISTER n 1))) ∧
    parseLine rn
      [⟨.I, "I", 0, l1⟩, ⟨.SPACE, " ", 0, l1⟩, ⟨.HAVE, "have", 0, l1⟩,
       ⟨.SPACE, " ", 0, l1⟩, ⟨.NUMBER, xt, k, l1⟩, ⟨.SPACE, " ", 0, l1⟩,
       ⟨.REGISTER, n, 0, l2⟩, ⟨.NEWLINE, "\n", 0, l1⟩] =
      (pNameWarn ⟨.REGISTER, n, 0, l2⟩, .ok (some (.REGISTER n (k : Int)))) ∧
    parseLine rn
      [⟨.I, "I", 0, l1⟩, ⟨.SPACE, " ", 0, l1⟩, ⟨.HAVE, "have", 0, l1⟩,
       ⟨.SPACE, " ", 0, l1⟩, ⟨.REGISTER, n, 0, l2⟩, ⟨.NEWLINE, "\n", 0, l1⟩] =
      (pNameWarn ⟨.REGISTER, n, 0, l2⟩, .ok (some (.REGISTER n 0))) ∧
    execOp lm (.REGISTER n v) s = .ok (setReg s n v) ∧
    (setReg s n v).registers.lookup n = some v := by
  refine ⟨?_, ?_, ?_, ?_, ?_, rfl, ?_⟩
  · simp [parseLine, skipOptSpace, declTail, andThen, expectT, declFinish,
      lineEnd, pNumberVal]
    decide
  · simp [parseLine, skipOptSpace, declTail, andThen, expectT, declFinish,
      lineEnd, pNumberVal]
    decide
  · simp [parseLine, skipOptSpace, declTail, andThen, expectT, declFinish,
      lineEnd, pNumberVal]
    decide
  · simp [parseLine, skipOptSpace, declTail, andThen, expectT, declFinish,
      lineEnd, pNumberVal]
  · simp [parseLine, skipOptSpace, declTail, andThen, expectT, declFinish,
      lineEnd, pNumberVal]
  · simp [setReg, lookup_cons_self]

/-! ## Monotonicity of the parse fold (for C9) -/

theorem mem_diags_addProgram (st : PState) (i : Instr) (w : String)
    (h : w ∈ st.diags) : w ∈ (addProgram st i).diags := by
  cases i <;> simp only [addProgram] <;> (try split) <;> simp_all

theorem mem_diags_processLine (st : PState) (l : List Tok) (w : String)
    (h : w ∈ st.diags) : w ∈ (processLine st l).diags := by
  unfold processLine
  cases hr : (parseLine st.registerNames l).2 with
  | error e =>
    cases e <;> simp [hr] <;> simp_all
  | ok oi =>
    cases oi with
    | none => simp [hr]; simp_all
    | some i =>
      simp only [hr]
      split
      · simp_all
      · exact mem_diags_addProgram _ _ _ (by simp_all)

theorem mem_diags_foldl (ls : List (List Tok)) (st : PState) (w : String)
    (h : w ∈ st.diags) : w ∈ (ls.foldl processLine st).diags := by
  induction ls generalizing st with
  | nil => simpa using h
  | cons l ls ih => exact ih _ (mem_diags_processLine _ _ _ h)

theorem err_processLine (st : PState) (l : List Tok) (h : st.err = true) :
    (processLine st l).err = true := by
  unfold processLine
  cases hr : (parseLine st.registerNames l).2 with
  | error e => cases e <;> simp [hr]
  | ok oi =>
    cases oi with
    | none => simp [hr]; simp_all
    | some i =>
      simp only [hr]
      split
      · simp_all
      · simp_all

theorem err_foldl (ls : List (List Tok)) (st : PState) (h : st.err = true) :
    (ls.foldl processLine st).err = true := by
  induction ls generalizing st with
  | nil => simpa using h
  | cons l ls ih => exact ih _ (err_processLine _ _ h)

theorem processLine_err_line (st : PState) (l : List Tok) (t : Tok)
    (h : (parseLine st.registerNames l).2 = .error (some t)) :
    (processLine st l).err = true ∧
    syntaxErrorMsg t ∈ (processLine st l).diags := by
  unfold processLine
  simp [h]

theorem processLine_warnings_mem (st : PState) (l : List Tok) (w : String)
    (h : w ∈ (parseLine st.registerNames l).1) :
    w ∈ (processLine st l).diags := by
  unfold processLine
  cases hr : (parseLine st.registerNames l).2 with
  | error e => cases e <;> simp [hr] <;> simp_all
  | ok oi =>
    cases oi with
    | none => simp [hr]; simp_all
    | some i =>
      simp only [hr]
      split
      · simp_all
      · exact mem_diags_addProgram _ _ _ (by simp_all)

theorem parseTokens_of_split (ts : List Tok) (ls : List (List Tok))
    (l : List Tok) (hsplit : splitLines ts = l :: ls) :
    parseTokens ts = (l :: ls).foldl processLine initP := by
  unfold parseTokens
  rw [hsplit]

/-- Claim C9.  If some newline-terminated source line is syntactically
invalid — the line parser rejects it at token `t` in the parser state
reached at that line — then (1) `parse` returns a failed result (no
instruction list), (2) the diagnostics contain
`line <n>: '<offending token text>' syntax error`, with the two
characters `\n` printed when the offending token is the end-of-line
marker, and (3) the parser continues scanning: every diagnostic of every
subsequent line (in the state reached at that line) is still emitted. -/
theorem c9_syntax_error_recovery (src : String) (pre suf : List (List Tok))
    (l : List Tok) (t : Tok)
    (hsplit : splitLines (ppapLex src).1 = pre ++ l :: suf)
    (herr : (parseLine (List.foldl processLine initP pre).registerNames l).2 =
      .error (some t)) :
    (parse src).1 = none ∧
    ("line " ++ toString t.lineno ++ ": '" ++
      (if t.ttype = .NEWLINE then "\\n"
       else if t.ttype = .NUMBER then toString t.num else t.text) ++
      "' syntax error") ∈ (parse src).2 ∧
    (∀ pre2 l2 suf2, suf = pre2 ++ l2 :: suf2 →
      ∀ w ∈ (parseLine
          (List.foldl processLine initP (pre ++ l :: pre2)).registerNames
          l2).1,
        w ∈ (parse src).2) := by
  have hne : pre ++ l :: suf ≠ [] := by simp
  have hPT : parseTokens (ppapLex src).1 =
      (pre ++ l :: suf).foldl processLine initP := by
    cases hcons : pre ++ l :: suf with
    | nil => exact absurd hcons hne
    | cons a as =>
      rw [← hcons]
      exact hcons ▸ parseTokens_of_split _ as a (hsplit.trans hcons)
  have hfold : (pre ++ l :: suf).foldl processLine initP =
      suf.foldl processLine
        (processLine (List.foldl processLine initP pre) l) := by
    rw [List.foldl_append, List.foldl_cons]
  have hline := processLine_err_line (List.foldl processLine initP pre) l t herr
  have herrF : (parseTokens (ppapLex src).1).err = true := by
    rw [hPT, hfold]
    exact err_foldl _ _ hline.1
  have hmsg : syntaxErrorMsg t ∈ (parseTokens (ppapLex src).1).diags := by
    rw [hPT, hfold]
    exact mem_diags_foldl _ _ _ hline.2
  refine ⟨?_, ?_, ?_⟩
  · show (if (parseTokens (ppapLex src).1).err then none
      else some (parseTokens (ppapLex src).1).acc) = none
    rw [herrF]
    rfl
  · show _ ∈ (ppapLex src).2 ++ (parseTokens (ppapLex src).1).diags
    refine List.mem_append_right _ ?_
    have : ("line " ++ toString t.lineno ++ ": '" ++
        (if t.ttype = .NEWLINE then "\\n"
         else if t.ttype = .NUMBER then toString t.num else t.text) ++
        "' syntax error") = syntaxErrorMsg t := by
      simp [syntaxErrorMsg, tokErrText]
    rw [this]
    exact hmsg
  · intro pre2 l2 suf2 hsuf w hw
    subst hsuf
    show w ∈ (ppapLex src).2 ++ (parseTokens (ppapLex src).1).diags
    refine List.mem_append_right _ ?_
    rw [hPT]
    have hst2 : List.foldl processLine initP (pre ++ l :: pre2) =
        pre2.foldl processLine
          (processLine (List.foldl processLine initP pre) l) := by
      rw [List.foldl_append, List.foldl_cons]
    have hw2 : w ∈ (processLine
        (pre2.foldl processLine
          (processLine (List.foldl processLine initP pre) l)) l2).diags :=
      processLine_warnings_mem _ _ _ (by rw [← hst2]; exact hw)
    have hsplit2 : List.foldl processLine initP
        (pre ++ l :: (pre2 ++ l2 :: suf2)) =
        suf2.foldl processLine
          (processLine
            (pre2.foldl processLine
              (processLine (List.foldl processLine initP pre) l)) l2) := by
      rw [List.foldl_append, List.foldl_cons, List.foldl_append, List.foldl_cons]
    rw [hsplit2]
    exact mem_diags_foldl _ _ _ hw2

/-- Witness for `c9_syntax_error_recovery`: line 1 `I` alone is invalid
(offending token: the newline, reported as the two characters `\n`);
line 2's undeclared-register warning is still emitted; the parse fails. -/
theorem c9_syntax_error_recovery_witness :
    (parse "I\nUh! Print-Q\n").1 = none ∧
    ("line 1: '\\n' syntax error") ∈ (parse "I\nUh! Print-Q\n").2 ∧
    ("line 2: 'Q' is an undeclared register") ∈ (parse "I\nUh! Print-Q\n").2 := by
  have h := c9_syntax_error_recovery "I\nUh! Print-Q\n" []
    [[⟨.UH, "Uh", 0, 2⟩, ⟨.EXCLAMATION_MARK, "!", 0, 2⟩, ⟨.SPACE, " ", 0, 2⟩,
      ⟨.PRINT, "Print", 0, 2⟩, ⟨.HYPHEN, "-", 0, 2⟩, ⟨.REGISTER, "Q", 0, 2⟩,
      ⟨.NEWLINE, "\n", 0, 2⟩]]
    [⟨.I, "I", 0, 1⟩, ⟨.NEWLINE, "\n", 0, 1⟩] ⟨.NEWLINE, "\n", 0, 1⟩
    (by decide) rfl
  refine ⟨h.1, ?_, ?_⟩
  · have := h.2.1
    simpa using this
  · refine h.2.2 []
      [⟨.UH, "Uh", 0, 2⟩, ⟨.EXCLAMATION_MARK, "!", 0, 2⟩, ⟨.SPACE, " ", 0, 2⟩,
       ⟨.PRINT, "Print", 0, 2⟩, ⟨.HYPHEN, "-", 0, 2⟩, ⟨.REGISTER, "Q", 0, 2⟩,
       ⟨.NEWLINE, "\n", 0, 2⟩] [] rfl _ (by decide)

end Ppap


